import Mathlib

/-! Shallow embedding of the Lemur data-profiling core
(backend/data_profiler.py and backend/query_suggester.py).

Modelling conventions:
* A pandas Series is modelled by the four dtype families the profiler
  distinguishes: numeric (int64/float64 collapsed, values in ℚ), bool,
  datetime64 (timestamps measured in days, in ℚ) and object/string.
  Missing values (NaN, NaT, None) are Option.none.
* String-to-datetime parsing (pd.to_datetime) is abstracted by an
  explicit parameter of type String → Option ℚ; none of the control
  flow of the profiler depends on its internals.
* Arithmetic that the source performs on floats but that is exact for
  the operations involved (sums, ratios, percentages, quantiles with
  linear interpolation, Python round) is modelled over ℚ; Python round
  is round-half-to-even.
* Statistics whose definitions need square roots (std, skewness,
  kurtosis, the rounded correlation coefficient) are outside the
  rational model; the corresponding record fields are omitted and no
  claim refers to them.  Membership in highly_correlated tests
  abs(corr) > 0.8 exactly as 25·Sxy^2 > 16·Sxx·Syy over the pairwise
  complete observations, matching pandas DataFrame.corr.
* Python f-string payloads that never influence control flow (the text
  of quality issues and warnings) are modelled as tagged values.
-/

/-! ### Basic utilities shared by the embedding -/

/-- Python round to an integer: round-half-to-even (banker's rounding). -/
def halfEvenInt (q : ℚ) : Int :=
  let f := q.floor
  let r := q - f
  if r < 1/2 then f
  else if 1/2 < r then f + 1
  else if f % 2 = 0 then f else f + 1

/-- Python round(x, d) over the exact rational model. -/
def pyRound (q : ℚ) (d : Nat) : ℚ :=
  (halfEvenInt (q * 10 ^ d) : ℚ) / 10 ^ d

/-- Insertion step of an ascending insertion sort over ℚ. -/
def insertAsc (x : ℚ) : List ℚ → List ℚ
  | [] => [x]
  | y :: ys => if x ≤ y then x :: y :: ys else y :: insertAsc x ys

/-- Ascending sort of a list of rationals. -/
def sortQ (l : List ℚ) : List ℚ := l.foldr insertAsc []

/-- Linear-interpolation quantile over an ascending-sorted list, the
default interpolation of pandas Series.quantile. -/
def quantileLinear (sorted : List ℚ) (q : ℚ) : ℚ :=
  match sorted with
  | [] => 0
  | _ :: _ =>
    let n := sorted.length
    let h := q * ((n : ℚ) - 1)
    let i := h.floor.toNat
    let g := h - (h.floor : ℚ)
    let lo := sorted.getD i 0
    let hi := sorted.getD (i + 1) 0
    lo + g * (hi - lo)

/-- Number of occurrences of a value in a list of rationals. -/
def countOcc (x : ℚ) (l : List ℚ) : Nat := (l.filter (fun y => y == x)).length

/-- First element of pandas Series.mode: the most frequent value,
smallest among ties (mode() returns the modes sorted ascending). -/
def modeSmallest (l : List ℚ) : Option ℚ :=
  match l.dedup with
  | [] => none
  | c :: cs =>
    some (cs.foldl
      (fun best x =>
        if countOcc best l < countOcc x l ∨
            (countOcc x l = countOcc best l ∧ x < best) then x else best) c)

/-- Differences between consecutive elements (pandas diff().dropna()). -/
def consecDiffs : List ℚ → List ℚ
  | [] => []
  | [_] => []
  | x :: y :: rest => (y - x) :: consecDiffs (y :: rest)

/-- Seen-set deduplication loop of QuerySuggester.generate_suggestions:
keeps the first occurrence of each string, preserving order. -/
def dedupLoop (seen : List String) : List String → List String
  | [] => []
  | x :: xs => if x ∈ seen then dedupLoop seen xs else x :: dedupLoop (x :: seen) xs

/-- Deduplication by first occurrence, as in the source's seen-set loop. -/
def dedupFirst (l : List String) : List String := dedupLoop [] l

/-- Python str.split() with no argument: split on runs of whitespace,
dropping empty pieces. -/
def pySplit (s : String) : List String :=
  (s.split Char.isWhitespace).filter (fun t => !t.isEmpty)

/-- Python substring containment (the in operator on str). -/
def containsSub (s pattern : String) : Bool := 2 ≤ (s.splitOn pattern).length

/-- Python ", ".join. -/
def joinComma (l : List String) : String := String.intercalate ", " l

/-! ### Series and DataFrame model -/

/-- A pandas Series, split by the dtype families the profiler inspects.
Numeric and datetime payloads are rationals (datetimes are measured in
days); missing entries are none. -/
inductive Series where
  | numeric (vals : List (Option ℚ))
  | boolv (vals : List (Option Bool))
  | datev (vals : List (Option ℚ))
  | obj (vals : List (Option String))
deriving DecidableEq

/-- len(series), nulls included. -/
def Series.length : Series → Nat
  | .numeric vs => vs.length
  | .boolv vs => vs.length
  | .datev vs => vs.length
  | .obj vs => vs.length

/-- series.isnull().sum(). -/
def Series.nullCount : Series → Nat
  | .numeric vs => (vs.filter (fun v => v.isNone)).length
  | .boolv vs => (vs.filter (fun v => v.isNone)).length
  | .datev vs => (vs.filter (fun v => v.isNone)).length
  | .obj vs => (vs.filter (fun v => v.isNone)).length

/-- len(series.dropna()). -/
def Series.non_null_count : Series → Nat
  | .numeric vs => (vs.filterMap id).length
  | .boolv vs => (vs.filterMap id).length
  | .datev vs => (vs.filterMap id).length
  | .obj vs => (vs.filterMap id).length

/-- series.nunique(): number of distinct non-null values. -/
def Series.nunique : Series → Nat
  | .numeric vs => (vs.filterMap id).dedup.length
  | .boolv vs => (vs.filterMap id).dedup.length
  | .datev vs => (vs.filterMap id).dedup.length
  | .obj vs => (vs.filterMap id).dedup.length

/-- pd.api.types.is_datetime64_any_dtype. -/
def Series.is_datetime_dtype : Series → Bool
  | .datev _ => true
  | _ => false

/-- series.dtype == bool. -/
def Series.is_bool_dtype : Series → Bool
  | .boolv _ => true
  | _ => false

/-- pd.api.types.is_numeric_dtype; in pandas this includes bool columns
(the inference order makes the distinction irrelevant). -/
def Series.is_numeric_dtype : Series → Bool
  | .numeric _ => true
  | .boolv _ => true
  | _ => false

/-- pd.api.types.is_string_dtype or is_object_dtype. -/
def Series.is_object_dtype : Series → Bool
  | .obj _ => true
  | _ => false

/-- df.select_dtypes(include=['number']) membership: numpy number
dtypes; unlike is_numeric_dtype this excludes bool. -/
def Series.is_number_select : Series → Bool
  | .numeric _ => true
  | _ => false

/-- Check of _infer_column_type rule 3: the distinct non-null values all
belong to the literal set containing 0, 1, "0", "1", the two Python
booleans and the four true/false string spellings.  Values of other
dtypes (timestamps) never compare equal to members of that set. -/
def Series.uniqueInBoolSet : Series → Bool
  | .numeric vs => (vs.filterMap id).all (fun q => q == 0 || q == 1)
  | .boolv _ => true
  | .datev vs => (vs.filterMap id).isEmpty
  | .obj vs =>
    (vs.filterMap id).all (fun t => ["0", "1", "true", "false", "True", "False"].contains t)

/-- non_null.head(100) for an object column (used by the temporal-parse
probe of the inference unit). -/
def Series.headNonNull100 : Series → List String
  | .obj vs => (vs.filterMap id).take 100
  | _ => []

/-- non_null.astype(str).str.len().mean() for an object column. -/
def Series.avg_str_length : Series → ℚ
  | .obj vs =>
    let nn := vs.filterMap id
    if nn.length = 0 then 0 else ((nn.map String.length).sum : ℚ) / (nn.length : ℚ)
  | _ => 0

/-- Non-null numeric payload of a column (series.dropna() for the
numeric profiler). -/
def Series.numericVals : Series → List ℚ
  | .numeric vs => vs.filterMap id
  | _ => []

/-- One cell of a row, for row-level duplicate detection; pandas
duplicated treats missing values as equal to each other. -/
inductive Cell where
  | cnum (q : ℚ)
  | cbool (b : Bool)
  | cdate (t : ℚ)
  | cstr (s : String)
  | cnull
deriving DecidableEq

/-- Cell of a series at a row index. -/
def Series.cellAt (s : Series) (i : Nat) : Cell :=
  match s with
  | .numeric vs => match vs.getD i none with | some q => .cnum q | none => .cnull
  | .boolv vs => match vs.getD i none with | some b => .cbool b | none => .cnull
  | .datev vs => match vs.getD i none with | some t => .cdate t | none => .cnull
  | .obj vs => match vs.getD i none with | some t => .cstr t | none => .cnull

/-- A pandas DataFrame: named columns in order.  All columns of a real
DataFrame share the same length. -/
structure DataFrame where
  cols : List (String × Series)
deriving DecidableEq

/-- len(df): the row count. -/
def DataFrame.nRows (df : DataFrame) : Nat :=
  match df.cols with
  | [] => 0
  | c :: _ => c.2.length

/-- Row i of the DataFrame. -/
def DataFrame.row (df : DataFrame) (i : Nat) : List Cell :=
  df.cols.map (fun c => c.2.cellAt i)

/-- All rows of the DataFrame. -/
def DataFrame.rows (df : DataFrame) : List (List Cell) :=
  (List.range df.nRows).map df.row

/-- df.duplicated().sum(): rows equal to some earlier row. -/
def DataFrame.duplicatedCount (df : DataFrame) : Nat :=
  df.nRows - df.rows.dedup.length

/-- len(df.dropna()): rows with no missing cell. -/
def DataFrame.completeRows (df : DataFrame) : Nat :=
  (df.rows.filter (fun r => !(r.contains Cell.cnull))).length

/-- Names of the df.select_dtypes(include=['number']) columns. -/
def DataFrame.numberColNames (df : DataFrame) : List String :=
  (df.cols.filter (fun c => c.2.is_number_select)).map (fun c => c.1)

/-- Names of the df.select_dtypes(include=['object']) columns. -/
def DataFrame.objectColNames (df : DataFrame) : List String :=
  (df.cols.filter (fun c => c.2.is_object_dtype)).map (fun c => c.1)

/-! ### Type Inference Unit (DataProfiler._infer_column_type) -/

/-- DataProfiler._infer_column_type, lines 107-159 of data_profiler.py.
The parse argument abstracts pd.to_datetime(value, errors coerced to
null); the try/except around that call never fires because parse is
total.  The two identical to_datetime calls of the source are collapsed
into one. -/
def infer_column_type (parse : String → Option ℚ) (series : Series) : String :=
  if series.non_null_count = 0 then "empty"
  else if series.is_datetime_dtype then "datetime"
  else if series.is_bool_dtype = true ∨
      (series.nunique = 2 ∧ series.uniqueInBoolSet = true) then "boolean"
  else if series.is_numeric_dtype then
    if (series.nunique : ℚ) / (series.non_null_count : ℚ) > 0.95 then "identifier"
    else "numeric"
  else if series.is_object_dtype then
    let sample := series.headNonNull100
    let parsedCount := (sample.filterMap parse).length
    if (parsedCount : ℚ) > (sample.length : ℚ) * 0.5 then "datetime"
    else
      let unique_ratio := (series.nunique : ℚ) / (series.non_null_count : ℚ)
      if unique_ratio > 0.95 then "identifier"
      else if unique_ratio < 0.05 ∨ series.nunique < 20 then "categorical"
      else if series.avg_str_length > 50 then "text"
      else "categorical"
  else "unknown"

/-! ### Per-Type Profilers (DataProfiler._profile_*_column) -/

/-- Summary statistics of a numeric column.  std, skewness and kurtosis
are omitted from the model: their definitions need square roots and are
genuinely floating point; no claim refers to them. -/
structure NumericStats where
  meanv : Option ℚ
  medianv : Option ℚ
  minv : Option ℚ
  maxv : Option ℚ
  q25 : Option ℚ
  q75 : Option ℚ
deriving DecidableEq

/-- Sign distribution of a numeric column. -/
structure NumericDistribution where
  zeros : Nat
  negatives : Nat
  positives : Nat
deriving DecidableEq

/-- IQR outlier report of a numeric column. -/
structure OutlierInfo where
  count : Nat
  percentage : ℚ
deriving DecidableEq

/-- Full numeric profile. -/
structure NumericProfile where
  stats : NumericStats
  distribution : NumericDistribution
  outliers : Option OutlierInfo
deriving DecidableEq

/-- DataProfiler._profile_numeric_column, lines 161-198. -/
def profile_numeric_column (series : Series) : NumericProfile :=
  let non_null := series.numericVals
  let n := non_null.length
  let sorted := sortQ non_null
  { stats :=
      { meanv := if 0 < n then some (pyRound (non_null.sum / (n : ℚ)) 4) else none
        medianv := if 0 < n then some (pyRound (quantileLinear sorted (1/2)) 4) else none
        minv := if 0 < n then some (pyRound (sorted.getD 0 0) 4) else none
        maxv := if 0 < n then some (pyRound (sorted.getD (n - 1) 0) 4) else none
        q25 := if 0 < n then some (pyRound (quantileLinear sorted (1/4)) 4) else none
        q75 := if 0 < n then some (pyRound (quantileLinear sorted (3/4)) 4) else none }
    distribution :=
      { zeros := (non_null.filter (fun x => x == 0)).length
        negatives := (non_null.filter (fun x => x < 0)).length
        positives := (non_null.filter (fun x => 0 < x)).length }
    outliers :=
      if 4 < n then
        let q1 := quantileLinear sorted (1/4)
        let q3 := quantileLinear sorted (3/4)
        let iqr := q3 - q1
        let lower_bound := q1 - 1.5 * iqr
        let upper_bound := q3 + 1.5 * iqr
        let outliers := non_null.filter (fun x => x < lower_bound ∨ upper_bound < x)
        some { count := outliers.length
               percentage := pyRound ((outliers.length : ℚ) / (n : ℚ) * 100) 2 }
      else none }

/-- Rendering of a scalar as Python str for sample/top values.  The
exact float formatting of Python is abstracted; no claim depends on it. -/
def cellStr : Cell → String
  | .cnum q => toString q
  | .cbool b => toString b
  | .cdate t => toString t
  | .cstr s => s
  | .cnull => "nan"

/-- Non-null values of a series as cells, in order. -/
def Series.nonNullCells : Series → List Cell
  | .numeric vs => (vs.filterMap id).map Cell.cnum
  | .boolv vs => (vs.filterMap id).map Cell.cbool
  | .datev vs => (vs.filterMap id).map Cell.cdate
  | .obj vs => (vs.filterMap id).map Cell.cstr

/-- All values of a series as cells (nulls kept), in order. -/
def Series.allCells (s : Series) : List Cell :=
  (List.range s.length).map s.cellAt

/-- series.value_counts(): distinct non-null values with multiplicity,
sorted by descending count; pandas leaves the order of equal counts
unspecified, modelled here as first-occurrence order (stable sort). -/
def valueCounts (s : Series) : List (Cell × Nat) :=
  let cells := s.nonNullCells
  let tally := cells.dedup.map (fun c => (c, (cells.filter (fun x => x == c)).length))
  tally.mergeSort (fun a b => b.2 ≤ a.2)

/-- Categorical profile: top-10 frequent values and cardinality. -/
structure CatProfile where
  top_values : List (String × Nat × ℚ)
  unique : Nat
  unique_percentage : ℚ
deriving DecidableEq

/-- DataProfiler._profile_categorical_column, lines 200-222. -/
def profile_categorical_column (series : Series) : CatProfile :=
  let len := series.length
  { top_values :=
      ((valueCounts series).take 10).map
        (fun vc => (cellStr vc.1, vc.2, pyRound ((vc.2 : ℚ) / (len : ℚ) * 100) 2))
    unique := series.nunique
    unique_percentage :=
      if 0 < len then pyRound ((series.nunique : ℚ) / (len : ℚ) * 100) 2 else 0 }

/-- DataProfiler._detect_date_frequency, lines 254-283.  The timestamps
are in days, so a Timedelta of d days is the rational d. -/
def detect_date_frequency (dates : List ℚ) : Option String :=
  if dates.length < 2 then none
  else
    let sorted_dates := sortQ dates
    let diffs := consecDiffs sorted_dates
    if diffs.length = 0 then none
    else
      match modeSmallest diffs with
      | none => some "irregular"
      | some mode_diff =>
        if 0.9 ≤ mode_diff ∧ mode_diff ≤ 1.1 then some "daily"
        else if 6.5 ≤ mode_diff ∧ mode_diff ≤ 7.5 then some "weekly"
        else if 28 ≤ mode_diff ∧ mode_diff ≤ 31 then some "monthly"
        else if 365 ≤ mode_diff ∧ mode_diff ≤ 366 then some "yearly"
        else some "irregular"

/-- date_range part of the datetime profile; min and max are rendered
as strings in the source, kept as timestamps here. -/
structure DateRange where
  minDate : ℚ
  maxDate : ℚ
  days : Int
deriving DecidableEq

/-- patterns part of the datetime profile. -/
structure DatePatterns where
  has_time : Bool
  unique_dates : Nat
  frequency : Option String
deriving DecidableEq

/-- Result of the datetime profiler: statistics, or the
"Could not parse as datetime" error marker produced when the coerced
series has no non-null values or the conversion fails (the only
per-type profiler whose body is wrapped in try/except). -/
inductive DatetimeProfile where
  | stats (dr : DateRange) (pat : DatePatterns)
  | parseFailure
deriving DecidableEq

/-- pd.to_datetime(series, errors coerced) over the model: datetime
columns pass through; object columns go through parse value by value;
numeric columns are already epoch-like numbers and keep their value;
bool columns coerce to no usable timestamps. -/
def coerceDatetime (parse : String → Option ℚ) : Series → List ℚ
  | .datev vs => vs.filterMap id
  | .obj vs => vs.filterMap (fun o => o.bind parse)
  | .numeric vs => vs.filterMap id
  | .boolv _ => []

/-- DataProfiler._profile_datetime_column, lines 224-252. -/
def profile_datetime_column (parse : String → Option ℚ) (series : Series) : DatetimeProfile :=
  let non_null := coerceDatetime parse series
  match non_null with
  | [] => .parseFailure
  | _ :: _ =>
    let sorted := sortQ non_null
    let lo := sorted.getD 0 0
    let hi := sorted.getD (non_null.length - 1) 0
    .stats
      { minDate := lo
        maxDate := hi
        days := if 1 < non_null.length then (hi - lo).floor else 0 }
      { has_time := non_null.any (fun t => !(t - (t.floor : ℚ) == 0))
        unique_dates := (non_null.map (fun t => t.floor)).dedup.length
        frequency := detect_date_frequency non_null }

/-- Text profile of _profile_text_column. -/
structure TextProfile where
  avg_length : ℚ
  min_length : Nat
  max_length : Nat
  avg_words : ℚ
  has_urls : Bool
  has_emails : Bool
deriving DecidableEq

/-- Matcher for the URL regex of the source (https?://\S+): some
position starts http:// or https:// followed by a non-space character. -/
def hasUrlChars : List Char → Bool
  | [] => false
  | c :: rest =>
    (('h' :: 't' :: 't' :: 'p' :: ':' :: '/' :: '/' :: []).isPrefixOf (c :: rest) &&
      (match (c :: rest).drop 7 with
       | d :: _ => !d.isWhitespace
       | [] => false)) ||
    (('h' :: 't' :: 't' :: 'p' :: 's' :: ':' :: '/' :: '/' :: []).isPrefixOf (c :: rest) &&
      (match (c :: rest).drop 8 with
       | d :: _ => !d.isWhitespace
       | [] => false)) ||
    hasUrlChars rest

/-- Matcher for the email regex of the source (\S+@\S+): an @ with a
non-space character on both sides. -/
def hasEmailChars : List Char → Bool
  | [] => false
  | [_] => false
  | a :: b :: rest =>
    (!a.isWhitespace && b == '@' &&
      (match rest with
       | d :: _ => !d.isWhitespace
       | [] => false)) ||
    hasEmailChars (b :: rest)

/-- DataProfiler._profile_text_column, lines 285-302; returns none for
the empty-column early return of the source. -/
def profile_text_column (series : Series) : Option TextProfile :=
  let non_null := match series with
    | .obj vs => vs.filterMap id
    | _ => []
  match non_null with
  | [] => none
  | _ :: _ =>
    let lens := non_null.map String.length
    some
      { avg_length := pyRound ((lens.sum : ℚ) / (non_null.length : ℚ)) 2
        min_length := lens.foldr Nat.min (lens.getD 0 0)
        max_length := lens.foldr Nat.max 0
        avg_words := pyRound (((non_null.map (fun t => (pySplit t).length)).sum : ℚ) /
          (non_null.length : ℚ)) 2
        has_urls := non_null.any (fun t => hasUrlChars t.data)
        has_emails := non_null.any (fun t => hasEmailChars t.data) }

/-- Boolean profile of _profile_boolean_column. -/
structure BoolProfile where
  trues : Nat
  falses : Nat
  true_percentage : ℚ
deriving DecidableEq

/-- Truthy tokens of the bool_map of the source. -/
def truthyTokens : List String := ["true", "True", "TRUE", "1"]

/-- Falsy tokens of the bool_map of the source. -/
def falsyTokens : List String := ["false", "False", "FALSE", "0"]

/-- DataProfiler._profile_boolean_column, lines 304-324: non-bool
values are normalised through bool_map (1 and 0 as numbers, the eight
string spellings); unmapped values count as neither true nor false. -/
def profile_boolean_column (series : Series) : BoolProfile :=
  let t := match series with
    | .boolv vs => (vs.filterMap id).countP (fun b => b == true)
    | .numeric vs => (vs.filterMap id).countP (fun q => q == 1)
    | .obj vs => (vs.filterMap id).countP (fun s => truthyTokens.contains s)
    | .datev _ => 0
  let f := match series with
    | .boolv vs => (vs.filterMap id).countP (fun b => b == false)
    | .numeric vs => (vs.filterMap id).countP (fun q => q == 0)
    | .obj vs => (vs.filterMap id).countP (fun s => falsyTokens.contains s)
    | .datev _ => 0
  { trues := t
    falses := f
    true_percentage :=
      if 0 < series.length then pyRound ((t : ℚ) / (series.length : ℚ) * 100) 2 else 0 }

/-- Identifier profile of _profile_identifier_column. -/
structure IdentifierProfile where
  is_unique : Bool
  has_pattern : Bool
  sample_values : List String
deriving DecidableEq

/-- Regex ^\d+$ as a full match. -/
def allDigitsPat (s : String) : Bool :=
  !s.isEmpty && s.data.all Char.isDigit

/-- Regex ^[A-Z]{2,3}-\d+$ as a full match. -/
def prefixDashPat (s : String) : Bool :=
  match s.data with
  | a :: b :: '-' :: rest =>
    a.isUpper && b.isUpper && !rest.isEmpty && rest.all Char.isDigit
  | a :: b :: c :: '-' :: rest =>
    a.isUpper && b.isUpper && c.isUpper && !rest.isEmpty && rest.all Char.isDigit
  | _ => false

/-- Lowercase hex digit test for the UUID pattern. -/
def isHexLower (c : Char) : Bool :=
  c.isDigit || (('a' ≤ c) && (c ≤ 'f'))

/-- Canonical UUID regex (8-4-4-4-12 lowercase hex groups) as a full
match. -/
def uuidPat (s : String) : Bool :=
  match s.splitOn "-" with
  | [g1, g2, g3, g4, g5] =>
    g1.length = 8 && g2.length = 4 && g3.length = 4 && g4.length = 4 && g5.length = 12 &&
    (g1 ++ g2 ++ g3 ++ g4 ++ g5).data.all isHexLower
  | _ => false

/-- DataProfiler._detect_id_pattern, lines 337-353: the pattern holds
when all of a 100-value sample matches one of the three regexes; on an
empty sample Python all() is vacuously true. -/
def detect_id_pattern (series : Series) : Bool :=
  let sample := (series.nonNullCells.take 100).map cellStr
  sample.all allDigitsPat || sample.all prefixDashPat || sample.all uuidPat

/-- DataProfiler._profile_identifier_column, lines 326-335. -/
def profile_identifier_column (series : Series) : IdentifierProfile :=
  { is_unique := series.nunique == series.length
    has_pattern := detect_id_pattern series
    sample_values := (series.nonNullCells.take 5).map cellStr }

/-! ### Column profile assembly (DataProfiler._profile_columns) -/

/-- Type-specific part of a column profile, one variant per per-type
profiler plus the no-extra case (empty and unknown columns). -/
inductive ColumnExtra where
  | num (p : NumericProfile)
  | cat (p : CatProfile)
  | dt (p : DatetimeProfile)
  | txt (p : Option TextProfile)
  | bl (p : BoolProfile)
  | ident (p : IdentifierProfile)
  | noProfile
deriving DecidableEq

/-- Universal fields of a column profile plus the type-specific part.
The dtype label string of the source is abstracted to the dtype family
name. -/
structure ColumnProfile where
  dtype : String
  null_count : Nat
  null_percentage : ℚ
  unique_values : Nat
  unique_percentage : ℚ
  inferred_type : String
  extra : ColumnExtra
deriving DecidableEq

/-- Label for str(series.dtype); int64/float64 are collapsed. -/
def Series.dtypeLabel : Series → String
  | .numeric _ => "number"
  | .boolv _ => "bool"
  | .datev _ => "datetime64[ns]"
  | .obj _ => "object"

/-- Universal fields of _profile_columns for one column (null and
unique percentages are relative to len(df)). -/
def baseColumnProfile (df : DataFrame) (s : Series) (t : String) (e : ColumnExtra) :
    ColumnProfile :=
  { dtype := s.dtypeLabel
    null_count := s.nullCount
    null_percentage :=
      if 0 < df.nRows then pyRound ((s.nullCount : ℚ) / (df.nRows : ℚ) * 100) 2 else 0
    unique_values := s.nunique
    unique_percentage :=
      if 0 < df.nRows then pyRound ((s.nunique : ℚ) / (df.nRows : ℚ) * 100) 2 else 0
    inferred_type := t
    extra := e }

/-- Dispatch of _profile_columns on the inferred type, calling the
actual per-type profilers of the source. -/
def column_extra (parse : String → Option ℚ) (t : String) (s : Series) : ColumnExtra :=
  if t = "numeric" then .num (profile_numeric_column s)
  else if t = "categorical" then .cat (profile_categorical_column s)
  else if t = "datetime" then .dt (profile_datetime_column parse s)
  else if t = "text" then .txt (profile_text_column s)
  else if t = "boolean" then .bl (profile_boolean_column s)
  else if t = "identifier" then .ident (profile_identifier_column s)
  else .noProfile

/-- DataProfiler._profile_columns, lines 70-105, with the actual
per-type profilers (all of which are total functions). -/
def profile_columns (parse : String → Option ℚ) (df : DataFrame) :
    List (String × ColumnProfile) :=
  df.cols.map (fun c =>
    let t := infer_column_type parse c.2
    (c.1, baseColumnProfile df c.2 t (column_extra parse t c.2)))

/-! ### Column profiling with an explicit exception channel

The source loop of _profile_columns contains no try/except: an
exception raised by a dispatched per-type profiler propagates out of
the loop.  To state claims about hypothetical profiler failures the
loop is parameterised over the six profilers, each returning
Except String ColumnExtra (error = a raised Python exception). -/

/-- The six per-type profilers as fallible functions. -/
structure ProfilerSet where
  numericP : Series → Except String ColumnExtra
  categoricalP : Series → Except String ColumnExtra
  datetimeP : Series → Except String ColumnExtra
  textP : Series → Except String ColumnExtra
  booleanP : Series → Except String ColumnExtra
  identifierP : Series → Except String ColumnExtra

/-- Dispatch on the inferred type string, exactly as the if/elif chain
of _profile_columns; empty and unknown columns get no extra fields. -/
def dispatch_profiler (ps : ProfilerSet) (t : String) (s : Series) :
    Except String ColumnExtra :=
  if t = "numeric" then ps.numericP s
  else if t = "categorical" then ps.categoricalP s
  else if t = "datetime" then ps.datetimeP s
  else if t = "text" then ps.textP s
  else if t = "boolean" then ps.booleanP s
  else if t = "identifier" then ps.identifierP s
  else Except.ok ColumnExtra.noProfile

/-- Column loop of _profile_columns with the exception channel
explicit: the loop makes no provision for a failing profiler, so the
first error aborts the whole traversal (Python exception propagation)
and the profiles of the remaining columns are never built. -/
def profile_columns_loop (ps : ProfilerSet) (parse : String → Option ℚ)
    (df : DataFrame) : List (String × Series) → Except String (List (String × ColumnProfile))
  | [] => Except.ok []
  | c :: rest =>
    match dispatch_profiler ps (infer_column_type parse c.2) c.2 with
    | Except.error e => Except.error e
    | Except.ok ex =>
      match profile_columns_loop ps parse df rest with
      | Except.error e => Except.error e
      | Except.ok others =>
        Except.ok ((c.1, baseColumnProfile df c.2 (infer_column_type parse c.2) ex) :: others)

/-- DataProfiler._profile_columns with the exception channel explicit. -/
def profile_columns_except (ps : ProfilerSet) (parse : String → Option ℚ)
    (df : DataFrame) : Except String (List (String × ColumnProfile)) :=
  profile_columns_loop ps parse df df.cols

/-- The actual profilers of the source, which are total: only the
datetime profiler can encounter a parse failure, and it catches it
internally, degrading to the parseFailure marker. -/
def actual_profiler_set (parse : String → Option ℚ) : ProfilerSet :=
  { numericP := fun s => Except.ok (.num (profile_numeric_column s))
    categoricalP := fun s => Except.ok (.cat (profile_categorical_column s))
    datetimeP := fun s => Except.ok (.dt (profile_datetime_column parse s))
    textP := fun s => Except.ok (.txt (profile_text_column s))
    booleanP := fun s => Except.ok (.bl (profile_boolean_column s))
    identifierP := fun s => Except.ok (.ident (profile_identifier_column s)) }

/-! ### Quality Assessor (DataProfiler._assess_data_quality) -/

/-- Issue and warning entries; the f-string texts of the source are
modelled as tagged values carrying the unformatted figures. -/
inductive QualityNote where
  | duplicate_high (pct : ℚ)
  | duplicate_moderate (pct : ℚ)
  | null_high (col : String) (pct : ℚ)
  | null_moderate (col : String) (pct : ℚ)
  | single_value (col : String)
deriving DecidableEq

/-- Quality Report.  missing_values is a key that
QuerySuggester._generate_quality_queries reads from the data_quality
dict but that _assess_data_quality never writes; the profiler always
leaves it empty (Python dict.get then yields a falsy value). -/
structure QualityReport where
  issues : List QualityNote
  warnings : List QualityNote
  score : Int
  assessment : String
  missing_values : List (String × ℚ)
deriving DecidableEq

/-- Null percentage of a column relative to len(df), as computed inside
_assess_data_quality. -/
def nullPct (df : DataFrame) (s : Series) : ℚ :=
  if 0 < df.nRows then (s.nullCount : ℚ) / (df.nRows : ℚ) * 100 else 0

/-- Duplicate-row percentage, as computed inside _assess_data_quality. -/
def dupPct (df : DataFrame) : ℚ :=
  if 0 < df.nRows then (df.duplicatedCount : ℚ) / (df.nRows : ℚ) * 100 else 0

/-- State threaded through the checks: issues, warnings, score. -/
abbrev QState := List QualityNote × List QualityNote × Int

/-- Null-rate check of one column (second loop of the source). -/
def nullStep (df : DataFrame) (st : QState) (c : String × Series) : QState :=
  let p := nullPct df c.2
  if p > 50 then (st.1 ++ [.null_high c.1 p], st.2.1, st.2.2 - 15)
  else if p > 20 then (st.1, st.2.1 ++ [.null_moderate c.1 p], st.2.2 - 5)
  else st

/-- Single-value check of one column (third loop of the source). -/
def singleStep (st : QState) (c : String × Series) : QState :=
  if c.2.nunique = 1 then (st.1, st.2.1 ++ [.single_value c.1], st.2.2 - 5) else st

/-- DataProfiler._assess_data_quality, lines 355-400: score starts at
100, fixed penalties are subtracted, the result is clamped at 0 and
labelled. -/
def assess_data_quality (df : DataFrame) : QualityReport :=
  let d := dupPct df
  let st0 : QState :=
    if d > 10 then ([.duplicate_high d], [], 100 - 20)
    else if d > 5 then ([], [.duplicate_moderate d], 100 - 10)
    else ([], [], 100)
  let st1 := df.cols.foldl (nullStep df) st0
  let st2 := df.cols.foldl singleStep st1
  let score := max 0 st2.2.2
  { issues := st2.1
    warnings := st2.2.1
    score := score
    assessment :=
      if score ≥ 80 then "Good" else if score ≥ 60 then "Fair" else "Needs Attention"
    missing_values := [] }

/-! ### Relationship Detector (DataProfiler._detect_relationships) -/

/-- A highly correlated pair of numeric columns.  The rounded Pearson
coefficient of the source needs a square root and is omitted; the
membership test is modelled exactly. -/
structure CorrPair where
  col1 : String
  col2 : String
deriving DecidableEq

/-- Relationship Report: six lists, in the order the source builds
them. -/
structure Relationships where
  potential_ids : List String
  potential_foreign_keys : List String
  potential_dates : List String
  potential_categories : List String
  highly_correlated : List CorrPair
  potential_targets : List String
deriving DecidableEq

/-- Name-based part of the potential_ids rule. -/
def idNameCond (name : String) : Bool :=
  let ln := name.toLower
  ln.endsWith "_id" || ln.endsWith "id" || ["id", "key", "code", "identifier"].contains ln

/-- potential_foreign_keys rule. -/
def fkCond (name : String) : Bool :=
  let ln := name.toLower
  (ln.endsWith "_id" && !(ln == "id")) ||
    ["customer_id", "product_id", "user_id", "order_id"].contains ln

/-- Name-based part of the potential_dates rule. -/
def dateNameCond (name : String) : Bool :=
  let ln := name.toLower
  ["date", "time", "created", "updated", "modified"].any (fun w => containsSub ln w)

/-- Name-based part of the potential_targets rule. -/
def targetNameCond (name : String) : Bool :=
  ["target", "label", "class", "category", "result", "outcome"].contains name.toLower

/-- All unordered pairs of a list, in source order (i < j). -/
def allPairs : List (String × Series) → List ((String × Series) × (String × Series))
  | [] => []
  | c :: rest => (rest.map (fun d => (c, d))) ++ allPairs rest

/-- Pairwise-complete observations of two aligned numeric columns, as
pandas DataFrame.corr uses. -/
def pairedVals : List (Option ℚ) → List (Option ℚ) → List (ℚ × ℚ)
  | x :: xs, y :: ys =>
    (match x, y with
     | some a, some b => [(a, b)]
     | _, _ => []) ++ pairedVals xs ys
  | _, _ => []

/-- Exact test for abs(Pearson correlation) > 0.8 over the pairwise
complete observations: with centered sums Sxx, Syy, Sxy the condition
corr^2 > 0.64 is 25·Sxy^2 > 16·Sxx·Syy, and a zero variance gives a NaN
correlation which fails the source's comparison. -/
def corrAbove08 (xs ys : List (Option ℚ)) : Bool :=
  let pairs := pairedVals xs ys
  let n := pairs.length
  if n < 2 then false
  else
    let mx := (pairs.map (fun p => p.1)).sum / (n : ℚ)
    let my := (pairs.map (fun p => p.2)).sum / (n : ℚ)
    let sxx := (pairs.map (fun p => (p.1 - mx) ^ 2)).sum
    let syy := (pairs.map (fun p => (p.2 - my) ^ 2)).sum
    let sxy := (pairs.map (fun p => (p.1 - mx) * (p.2 - my))).sum
    if sxx == 0 || syy == 0 then false
    else 25 * sxy ^ 2 > 16 * sxx * syy

/-- Numeric columns with their payloads, for the correlation scan. -/
def numberCols (df : DataFrame) : List (String × Series) :=
  df.cols.filter (fun c => c.2.is_number_select)

/-- Highly correlated pairs of numeric columns (lines 444-455). -/
def corrPairs (df : DataFrame) : List CorrPair :=
  (allPairs (numberCols df)).filterMap (fun p =>
    match p.1.2, p.2.2 with
    | Series.numeric xs, Series.numeric ys =>
      if corrAbove08 xs ys then some { col1 := p.1.1, col2 := p.2.1 } else none
    | _, _ => none)

/-- DataProfiler._detect_relationships, lines 402-457.  The source
builds the six lists in one loop over the columns, appending a column
name when its rule fires; this is the same as one filter per rule. -/
def detect_relationships (parse : String → Option ℚ) (df : DataFrame) : Relationships :=
  { potential_ids :=
      (df.cols.filter (fun c =>
        infer_column_type parse c.2 == "identifier" || idNameCond c.1)).map (fun c => c.1)
    potential_foreign_keys :=
      (df.cols.filter (fun c => fkCond c.1)).map (fun c => c.1)
    potential_dates :=
      (df.cols.filter (fun c =>
        infer_column_type parse c.2 == "datetime" || dateNameCond c.1)).map (fun c => c.1)
    potential_categories :=
      (df.cols.filter (fun c =>
        infer_column_type parse c.2 == "categorical")).map (fun c => c.1)
    highly_correlated := corrPairs df
    potential_targets :=
      (df.cols.filter (fun c =>
        targetNameCond c.1 ||
        (infer_column_type parse c.2 == "boolean" ||
          (infer_column_type parse c.2 == "categorical" && c.2.nunique ≤ 5)))).map
        (fun c => c.1) }

/-! ### Analysis suggestions (DataProfiler._suggest_analyses) -/

/-- Column names whose inferred type matches a tag. -/
def inferredCols (parse : String → Option ℚ) (df : DataFrame) (t : String) : List String :=
  (df.cols.filter (fun c => infer_column_type parse c.2 == t)).map (fun c => c.1)

/-- First element helper mirroring Python list indexing cols[0] under a
nonemptiness guard. -/
def hd0 (l : List String) : String := l.getD 0 ""

/-- DataProfiler._suggest_analyses, lines 459-508. -/
def suggest_analyses (parse : String → Option ℚ) (df : DataFrame) : List String :=
  let numeric_cols := df.numberColNames
  let categorical_cols := inferredCols parse df "categorical"
  let date_cols := inferredCols parse df "datetime"
  let s1 := if 0 < df.nRows then ["What is the overall summary of this data?"] else []
  let s2 :=
    if numeric_cols ≠ [] then
      ["What are the key statistics for " ++ hd0 numeric_cols ++ "?"] ++
      (if 1 < numeric_cols.length then
        ["How does " ++ hd0 numeric_cols ++ " relate to " ++ numeric_cols.getD 1 "" ++ "?",
         "Which numeric columns are most correlated?"]
      else [])
    else []
  let s3 :=
    if categorical_cols ≠ [] then
      ["What is the distribution of " ++ hd0 categorical_cols ++ "?"] ++
      (if numeric_cols ≠ [] ∧ categorical_cols ≠ [] then
        ["How does " ++ hd0 numeric_cols ++ " vary by " ++ hd0 categorical_cols ++ "?"]
      else [])
    else []
  let s4 :=
    if date_cols ≠ [] then
      ["What are the trends over time?"] ++
      (if numeric_cols ≠ [] then
        ["How has " ++ hd0 numeric_cols ++ " changed over time?"]
      else [])
    else []
  let s5 :=
    if numeric_cols ≠ [] ∧ 10 < df.nRows then
      ["What are the top 10 records by " ++ hd0 numeric_cols ++ "?"]
    else []
  let null_cols := (df.cols.filter (fun c => 0 < c.2.nullCount)).map (fun c => c.1)
  let s6 :=
    if null_cols ≠ [] then
      ["How should we handle missing values in " ++ hd0 null_cols ++ "?"]
    else []
  (s1 ++ s2 ++ s3 ++ s4 ++ s5 ++ s6).take 7

/-! ### Profile Orchestrator (DataProfiler.profile_dataframe) -/

/-- basic_info of the profile; memory_usage_mb is a float of the
runtime memory layout and is omitted (no claim refers to it). -/
structure BasicInfo where
  rows : Nat
  columns : Nat
  duplicates : Nat
  duplicate_percentage : ℚ
  complete_rows : Nat
  complete_rows_percentage : ℚ
deriving DecidableEq

/-- DataProfiler._get_basic_info, lines 55-68. -/
def get_basic_info (df : DataFrame) : BasicInfo :=
  { rows := df.nRows
    columns := df.cols.length
    duplicates := df.duplicatedCount
    duplicate_percentage :=
      if 0 < df.nRows then pyRound ((df.duplicatedCount : ℚ) / (df.nRows : ℚ) * 100) 2 else 0
    complete_rows := df.completeRows
    complete_rows_percentage :=
      if 0 < df.nRows then pyRound ((df.completeRows : ℚ) / (df.nRows : ℚ) * 100) 2 else 0 }

/-- The complete Profile.  basic_stats is a key that
QuerySuggester._generate_quality_queries reads from the profile dict
(mapping a column to an outlier count) but that profile_dataframe never
writes; the orchestrator always leaves it empty.  convert_numpy_types
of the source is the identity in this model (all payloads are already
native values). -/
structure Profile where
  basic_info : BasicInfo
  columns : List (String × ColumnProfile)
  data_quality : QualityReport
  potential_relationships : Relationships
  suggested_analyses : List String
  basic_stats : List (String × Nat)
deriving DecidableEq

/-- DataProfiler.profile_dataframe, lines 33-53. -/
def profile_dataframe (parse : String → Option ℚ) (df : DataFrame) : Profile :=
  { basic_info := get_basic_info df
    columns := profile_columns parse df
    data_quality := assess_data_quality df
    potential_relationships := detect_relationships parse df
    suggested_analyses := suggest_analyses parse df
    basic_stats := [] }

/-- DataProfiler.profile_dataframe with the exception channel of the
column loop explicit (the dict construction makes no provision for a
raising _profile_columns). -/
def profile_dataframe_except (ps : ProfilerSet) (parse : String → Option ℚ)
    (df : DataFrame) : Except String Profile := do
  let cols ← profile_columns_except ps parse df
  pure
    { basic_info := get_basic_info df
      columns := cols
      data_quality := assess_data_quality df
      potential_relationships := detect_relationships parse df
      suggested_analyses := suggest_analyses parse df
      basic_stats := [] }

/-! ### Suggestion Generator (query_suggester.py) -/

/-- One chat message (a dict with role and content in the source). -/
structure ChatMsg where
  role : String
  content : String
deriving DecidableEq

/-- QuerySuggester._generate_overview_queries, lines 70-95. -/
def generate_overview_queries (df : DataFrame) (_profile : Profile) : List String :=
  let numeric_cols := df.numberColNames
  let categorical_cols := df.objectColNames
  ["What is the overall summary of this data?",
   "Show me the distribution of data across " ++ toString df.cols.length ++ " columns"] ++
  (if numeric_cols ≠ [] then
    (if numeric_cols.length = 1 then
      ["What are the statistics for " ++ hd0 numeric_cols ++ "?"]
    else
      ["Compare the ranges of " ++ hd0 numeric_cols ++ " and " ++
        (if 1 < numeric_cols.length then numeric_cols.getD 1 "" else "other numeric columns")])
  else []) ++
  (if categorical_cols ≠ [] then
    ["What are the unique values in " ++ hd0 categorical_cols ++ "?"]
  else [])

/-- First-outlier scan of _generate_quality_queries over the
basic_stats entries (the loop breaks at the first column whose outliers
entry is > 0). -/
def firstOutlierQuery : List (String × Nat) → List String
  | [] => []
  | (col, cnt) :: rest =>
    if 0 < cnt then ["Show me the outliers in " ++ col] else firstOutlierQuery rest

/-- QuerySuggester._generate_quality_queries, lines 97-120.  It reads
quality["missing_values"] and profile["basic_stats"]; with a profile
produced by profile_dataframe both are empty, so only the generic
issues question can fire. -/
def generate_quality_queries (profile : Profile) : List String :=
  let quality := profile.data_quality
  (if quality.missing_values ≠ [] then
    (let missing_cols := (quality.missing_values.filter (fun p => 0 < p.2)).map (fun p => p.1)
     if missing_cols ≠ [] then
       ["Why do columns " ++ joinComma (missing_cols.take 2) ++ " have missing values?"]
     else [])
  else []) ++
  (if quality.issues ≠ [] then ["What data quality issues should I be aware of?"] else []) ++
  firstOutlierQuery profile.basic_stats

/-- QuerySuggester._generate_ranking_queries, lines 122-145. -/
def generate_ranking_queries (df : DataFrame) (_profile : Profile) : List String :=
  let numeric_cols := df.numberColNames
  let categorical_cols := df.objectColNames
  (if numeric_cols ≠ [] then
    ["What are the top 10 highest values for " ++ hd0 numeric_cols ++ "?"] ++
    (if 1 < numeric_cols.length then
      ["Which records have both high " ++ hd0 numeric_cols ++ " and " ++
        numeric_cols.getD 1 "" ++ "?"]
    else [])
  else []) ++
  (if categorical_cols ≠ [] ∧ numeric_cols ≠ [] then
    ["What is the average " ++ hd0 numeric_cols ++ " by " ++ hd0 categorical_cols ++ "?",
     "Which " ++ hd0 categorical_cols ++ " has the highest total " ++
       hd0 numeric_cols ++ "?"]
  else [])

/-- QuerySuggester._generate_trend_queries, lines 147-169. -/
def generate_trend_queries (df : DataFrame) (profile : Profile) : List String :=
  let date_cols := profile.potential_relationships.potential_dates
  let numeric_cols := df.numberColNames
  (if date_cols ≠ [] then
    (if numeric_cols ≠ [] then
      ["Show me the trend of " ++ hd0 numeric_cols ++ " over " ++ hd0 date_cols,
       "What patterns exist in the data by " ++ hd0 date_cols ++ "?"]
    else [])
  else []) ++
  (if 2 ≤ numeric_cols.length then
    ["Is there a correlation between " ++ hd0 numeric_cols ++ " and " ++
      numeric_cols.getD 1 "" ++ "?"]
  else [])

/-- QuerySuggester._generate_context_queries, lines 171-196. -/
def generate_context_queries (_df : DataFrame) (context : String) : List String :=
  let context_lower := context.toLower
  (if containsSub context_lower "revenue" || containsSub context_lower "sales" then
    ["What drives the highest revenue/sales?", "Show me revenue trends and patterns"]
  else []) ++
  (if containsSub context_lower "customer" then
    ["What are the customer segments in this data?",
     "Which customers contribute most to the business?"]
  else []) ++
  (if containsSub context_lower "product" then
    ["Which products perform best?", "What product patterns should I know about?"]
  else []) ++
  (if containsSub context_lower "performance" then
    ["What are the key performance indicators?",
     "Where are the performance bottlenecks?"]
  else [])

/-- Most recent user message of the history, lowercased ("" when there
is none), as in the reversed scan of the source. -/
def lastUserMessage (chat_history : List ChatMsg) : String :=
  match (chat_history.reverse.filter (fun m => m.role == "user")) with
  | m :: _ => m.content.toLower
  | [] => ""

/-- QuerySuggester._generate_followup_queries, lines 198-234. -/
def generate_followup_queries (_df : DataFrame) (chat_history : List ChatMsg) :
    List String :=
  if chat_history = [] then []
  else
    let last_message := lastUserMessage chat_history
    (if containsSub last_message "outlier" then
      ["What might be causing these outliers?",
       "Should I exclude these outliers from analysis?"]
    else []) ++
    (if containsSub last_message "average" || containsSub last_message "mean" then
      ["How does this compare to the median?", "What about the standard deviation?"]
    else []) ++
    (if containsSub last_message "top" || containsSub last_message "highest" then
      ["What about the bottom/lowest values?", "How do these compare to the average?"]
    else []) ++
    (if containsSub last_message "trend" then
      ["Is this trend statistically significant?",
       "What factors might influence this trend?"]
    else []) ++
    (if containsSub last_message "correlation" then
      ["Could this be causation or just correlation?",
       "What other factors should I consider?"]
    else [])

/-- QuerySuggester.generate_suggestions, lines 15-68.  The guard on the
quality category (profile truthy and containing a data_quality key) is
identically true for a Profile record, which always carries that field.
Python truthiness makes the overview gate fire for a missing or short
history and the context gate skip the empty string. -/
def generate_suggestions (df : DataFrame) (profile : Profile) (context : Option String)
    (chat_history : Option (List ChatMsg)) (max_suggestions : Nat) : List String :=
  let s1 :=
    match chat_history with
    | none => generate_overview_queries df profile
    | some h => if h.length < 2 then generate_overview_queries df profile else []
  let s2 := generate_quality_queries profile
  let s3 := generate_ranking_queries df profile
  let s4 := generate_trend_queries df profile
  let s5 :=
    match context with
    | some c => if c ≠ "" then generate_context_queries df c else []
    | none => []
  let s6 :=
    match chat_history with
    | some h => if h ≠ [] then generate_followup_queries df h else []
    | none => []
  (dedupFirst (s1 ++ s2 ++ s3 ++ s4 ++ s5 ++ s6)).take max_suggestions

/-- QuerySuggester._is_similar_query, lines 281-292: the distinct
shared words must exceed half the word count of the shorter string;
with no words on either side the guard min_len > 0 fails. -/
def is_similar_query (query1 query2 : String) : Bool :=
  let w1 := pySplit query1
  let w2 := pySplit query2
  let common_words := (w1.dedup.filter (fun w => w2.contains w)).length
  let min_len := min w1.length w2.length
  if 0 < min_len ∧ (common_words : ℚ) / (min_len : ℚ) > 0.5 then true else false

/-- QuerySuggester.update_suggestions_after_chat, lines 236-279: drop
the suggestions similar to the question just asked, then append the
keyword-triggered follow-ups of the answer; no cap, no deduplication. -/
def update_suggestions_after_chat (current_suggestions : List String)
    (user_message ai_response : String) : List String :=
  let user_msg_lower := user_message.toLower
  let filtered_suggestions :=
    current_suggestions.filter (fun s => !is_similar_query s.toLower user_msg_lower)
  let response_lower := ai_response.toLower
  let new_suggestions :=
    (if containsSub response_lower "missing" || containsSub response_lower "null" then
      ["How should I handle these missing values?"]
    else []) ++
    (if containsSub response_lower "outlier" then
      ["Should I investigate these outliers further?"]
    else []) ++
    (if containsSub response_lower "correlation" || containsSub response_lower "relationship" then
      ["Can you visualize this relationship?"]
    else []) ++
    (if containsSub response_lower "increase" || containsSub response_lower "decrease" then
      ["What might be causing this change?"]
    else [])
  filtered_suggestions ++ new_suggestions

/-! ### Statements of the specification, written from the claims -/

/-- The eight semantic-type tags of the spec (section 3 and 4.1). -/
def claim_semantic_types : List String :=
  ["numeric", "categorical", "datetime", "text", "boolean", "identifier", "empty", "unknown"]

/-- The ordered first-match decision list of claim C1 (spec section
4.1), following the claim's wording: the temporal-parse threshold is
phrased as more than 50 percent of the sampled values parsing, the
identifier threshold as distinct over non-null above 0.95, and so on. -/
def claim_infer_column_type (parse : String → Option ℚ) (series : Series) : String :=
  if series.non_null_count = 0 then "empty"
  else if series.is_datetime_dtype then "datetime"
  else if series.is_bool_dtype = true ∨
      (series.nunique = 2 ∧ series.uniqueInBoolSet = true) then "boolean"
  else if series.is_numeric_dtype then
    if (series.nunique : ℚ) / (series.non_null_count : ℚ) > 0.95 then "identifier"
    else "numeric"
  else if series.is_object_dtype then
    if 2 * (series.headNonNull100.filterMap parse).length > series.headNonNull100.length then
      "datetime"
    else if (series.nunique : ℚ) / (series.non_null_count : ℚ) > 0.95 then "identifier"
    else if (series.nunique : ℚ) / (series.non_null_count : ℚ) < 0.05 ∨
        series.nunique < 20 then "categorical"
    else if series.avg_str_length > 50 then "text"
    else "categorical"
  else "unknown"

/-- Number of chat-history entries (a missing history has none). -/
def histLen : Option (List ChatMsg) → Nat
  | none => 0
  | some h => h.length

/-- The gated category concatenation of claim C5: overview only below
two history entries, context only when a context string is given,
follow-up only when the history is non-empty; quality, ranking and
trend always contribute. -/
def claim_category_concat (df : DataFrame) (profile : Profile) (context : Option String)
    (chat_history : Option (List ChatMsg)) : List String :=
  (if histLen chat_history < 2 then generate_overview_queries df profile else []) ++
  generate_quality_queries profile ++
  generate_ranking_queries df profile ++
  generate_trend_queries df profile ++
  (match context with
   | some c => generate_context_queries df c
   | none => []) ++
  (match chat_history with
   | some h => if h ≠ [] then generate_followup_queries df h else []
   | none => [])

/-- Duplicate-row penalty of claim C9. -/
def claim_dup_penalty (df : DataFrame) : Int :=
  if dupPct df > 10 then 20 else if dupPct df > 5 then 10 else 0

/-- Per-column null-rate penalties of claim C9, summed. -/
def claim_null_penalty (df : DataFrame) (l : List (String × Series)) : Int :=
  (l.map (fun c =>
    if nullPct df c.2 > 50 then (15 : Int)
    else if nullPct df c.2 > 20 then 5 else 0)).sum

/-- Per-column single-distinct-value penalties of claim C9, summed. -/
def claim_single_penalty (l : List (String × Series)) : Int :=
  (l.map (fun c => if c.2.nunique = 1 then (5 : Int) else 0)).sum

/-- The quality score of claim C9: 100 minus the applicable fixed
penalties, clamped at 0. -/
def claim_quality_score (df : DataFrame) : Int :=
  max 0 (100 - claim_dup_penalty df - claim_null_penalty df df.cols -
    claim_single_penalty df.cols)

/-- Modal gap classification of claim C8 (all bounds inclusive, in
days). -/
def claim_classify_gap (m : ℚ) : String :=
  if 0.9 ≤ m ∧ m ≤ 1.1 then "daily"
  else if 6.5 ≤ m ∧ m ≤ 7.5 then "weekly"
  else if 28 ≤ m ∧ m ≤ 31 then "monthly"
  else if 365 ≤ m ∧ m ≤ 366 then "yearly"
  else "irregular"

/-- Modal gap between consecutive sorted timestamps (claim C8); only
used under the guard of at least two dates, where the mode exists. -/
def claim_modal_gap (dates : List ℚ) : ℚ :=
  (modeSmallest (consecDiffs (sortQ dates))).getD 0

/-- Similarity of claim C10: the distinct shared words exceed half the
word count of the shorter string, and an empty (word-free) string is
never similar to anything. -/
def claim_similar (q1 q2 : String) : Bool :=
  let w1 := pySplit q1
  let w2 := pySplit q2
  !w1.isEmpty && !w2.isEmpty &&
    decide (2 * (w1.dedup.filter (fun w => w2.contains w)).length > min w1.length w2.length)

/-- The keyword-triggered follow-ups of claim C10, scanned from the
lowercased answer text. -/
def claim_followups (ai_response : String) : List String :=
  let response_lower := ai_response.toLower
  (if containsSub response_lower "missing" || containsSub response_lower "null" then
    ["How should I handle these missing values?"]
  else []) ++
  (if containsSub response_lower "outlier" then
    ["Should I investigate these outliers further?"]
  else []) ++
  (if containsSub response_lower "correlation" || containsSub response_lower "relationship" then
    ["Can you visualize this relationship?"]
  else []) ++
  (if containsSub response_lower "increase" || containsSub response_lower "decrease" then
    ["What might be causing this change?"]
  else [])

/-- The property claim C3 asserts: whatever the per-type profilers do
on the columns, the profiling run never aborts and a profile is
produced (with one entry per column). -/
def claim_c3_statement : Prop :=
  ∀ (ps : ProfilerSet) (parse : String → Option ℚ) (df : DataFrame),
    ∃ pr : Profile, profile_dataframe_except ps parse df = Except.ok pr ∧
      pr.columns.length = df.cols.length

/-! ### Concrete inputs used by witnesses and counterexamples -/

/-- A parse function that accepts no string as a date. -/
def parse0 : String → Option ℚ := fun _ => none

/-- The 3-row scenario dataset of claim C9: name(string), age(int),
city(string), no duplicates, no nulls. -/
def df_scenario3 : DataFrame :=
  ⟨[("name", Series.obj [some "a", some "b", some "c"]),
    ("age", Series.numeric [some 1, some 2, some 3]),
    ("city", Series.obj [some "x", some "y", some "z"])]⟩

/-- A dataset with a column with missing values (age, 60 percent null)
and a numeric column with an IQR outlier (val contains 100). -/
def df_missing_outlier : DataFrame :=
  ⟨[("age", Series.numeric [some 1, some 2, none, none, none]),
    ("val", Series.numeric [some 1, some 2, some 3, some 4, some 100])]⟩

/-- The numeric column of claim C7. -/
def series_c7 : Series :=
  Series.numeric [some 1, some 2, some 3, some 4, some 100]

/-- A numeric user_id column with exactly the two distinct values 0
and 1 (all non-null values distinct). -/
def series_user01 : Series := Series.numeric [some 0, some 1]

/-- A profiler set whose numeric profiler raises, the others behaving
as the source profilers. -/
def failing_profilers : ProfilerSet :=
  { numericP := fun _ => Except.error "numeric profiler failure"
    categoricalP := fun s => Except.ok (.cat (profile_categorical_column s))
    datetimeP := fun s => Except.ok (.dt (profile_datetime_column parse0 s))
    textP := fun s => Except.ok (.txt (profile_text_column s))
    booleanP := fun s => Except.ok (.bl (profile_boolean_column s))
    identifierP := fun s => Except.ok (.ident (profile_identifier_column s)) }

/-- Two-column dataset whose first column is inferred numeric and whose
second is inferred categorical. -/
def df_two_cols : DataFrame :=
  ⟨[("x", Series.numeric [some 1, some 2, some 2]),
    ("y", Series.obj [some "a", some "a", some "b"])]⟩

/-- A dataset whose user_id column holds all-distinct sequential
integers. -/
def df_user : DataFrame :=
  ⟨[("user_id", Series.numeric [some 1, some 2, some 3])]⟩

/-- The generic data-quality question of the quality category. -/
def genericIssueQuery : String := "What data quality issues should I be aware of?"

/-! ### Helper lemmas -/

/-- An element of the seen set never reappears in the dedup output. -/
theorem dedupLoop_not_mem (x : String) :
    ∀ (l seen : List String), x ∈ seen → x ∉ dedupLoop seen l := by
  intro l
  induction l with
  | nil => intro seen _ h; simp [dedupLoop] at h
  | cons a t ih =>
    intro seen hx
    unfold dedupLoop
    split
    · exact ih seen hx
    · intro hmem
      rcases List.mem_cons.mp hmem with h | h
      · subst h; exact absurd hx (by assumption)
      · exact ih (a :: seen) (List.mem_cons_of_mem a hx) h

/-- The seen-set loop produces a list without duplicates. -/
theorem dedupLoop_nodup : ∀ (l seen : List String), (dedupLoop seen l).Nodup := by
  intro l
  induction l with
  | nil => intro seen; simp [dedupLoop]
  | cons a t ih =>
    intro seen
    unfold dedupLoop
    split
    · exact ih seen
    · exact List.nodup_cons.mpr ⟨dedupLoop_not_mem a t (a :: seen) (List.mem_cons_self a seen), ih (a :: seen)⟩

/-- Membership in a take is monotone in the prefix length. -/
theorem mem_take_of_le {α : Type} {x : α} :
    ∀ (n : Nat) (l : List α) (m : Nat), n ≤ m → x ∈ l.take n → x ∈ l.take m := by
  intro n
  induction n with
  | zero => intro l m _ h; simp at h
  | succ k ih =>
    intro l m hnm h
    cases l with
    | nil => simp at h
    | cons a t =>
      obtain ⟨m', rfl⟩ : ∃ m', m = m' + 1 := ⟨m - 1, by omega⟩
      rw [List.take_succ_cons] at h ⊢
      rcases List.mem_cons.mp h with h | h
      · exact h ▸ List.mem_cons_self a _
      · exact List.mem_cons_of_mem a (ih t m' (by omega) h)

/-- A fresh element placed after a prefix l1 survives deduplication
within the first l1.length + 1 output positions. -/
theorem mem_take_dedupLoop (x : String) :
    ∀ (l1 seen l2 : List String), x ∉ seen →
      x ∈ (dedupLoop seen (l1 ++ x :: l2)).take (l1.length + 1) := by
  intro l1
  induction l1 with
  | nil =>
    intro seen l2 hx
    simp only [List.nil_append, dedupLoop, if_neg hx]
    simp
  | cons a t ih =>
    intro seen l2 hx
    simp only [List.cons_append, dedupLoop]
    split
    · exact mem_take_of_le (t.length + 1) _ (t.length + 1 + 1) (by omega) (ih seen l2 hx)
    · by_cases hax : x = a
      · subst hax
        simp [List.take_succ_cons]
      · have hx' : x ∉ a :: seen := by
          intro hmem
          rcases List.mem_cons.mp hmem with h | h
          · exact hax h
          · exact hx h
        rw [List.length_cons, List.take_succ_cons]
        exact List.mem_cons_of_mem a (ih (a :: seen) l2 hx')

/-- The overview category contributes at most 4 strings. -/
theorem overview_queries_length_le (df : DataFrame) (p : Profile) :
    (generate_overview_queries df p).length ≤ 4 := by
  unfold generate_overview_queries
  dsimp only
  split_ifs <;> simp

/-- Insertion into a sorted list adds one element. -/
theorem insertAsc_length (x : ℚ) : ∀ l : List ℚ, (insertAsc x l).length = l.length + 1 := by
  intro l
  induction l with
  | nil => rfl
  | cons a t ih =>
    unfold insertAsc
    split
    · rfl
    · simp [ih]

/-- Sorting preserves length. -/
theorem sortQ_length (l : List ℚ) : (sortQ l).length = l.length := by
  unfold sortQ
  induction l with
  | nil => rfl
  | cons a t ih => simp [List.foldr_cons, insertAsc_length, ih]

/-- Consecutive differences drop exactly one element. -/
theorem consecDiffs_length : ∀ l : List ℚ, (consecDiffs l).length = l.length - 1 := by
  intro l
  match l with
  | [] => rfl
  | [_] => rfl
  | x :: y :: rest =>
    have ih := consecDiffs_length (y :: rest)
    simp only [consecDiffs, List.length_cons] at ih ⊢
    omega

/-- The mode of a non-empty list exists. -/
theorem modeSmallest_isSome {l : List ℚ} (h : l ≠ []) : ∃ m, modeSmallest l = some m := by
  unfold modeSmallest
  have hd : l.dedup ≠ [] := by
    intro hnil
    exact h ((List.dedup_eq_nil l).mp hnil)
  match hdd : l.dedup with
  | [] => exact absurd hdd hd
  | c :: cs => exact ⟨_, rfl⟩

/-- Strict comparison against a half, cleared of the denominator. -/
theorem ratio_gt_half (c m : Nat) :
    ((c : ℚ) > (m : ℚ) * 0.5) ↔ 2 * c > m := by
  rw [gt_iff_lt, show (0.5 : ℚ) = 1 / 2 by norm_num]
  rw [mul_one_div, div_lt_iff₀ (by norm_num : (0 : ℚ) < 2)]
  constructor
  · intro h
    have h2 : (m : ℚ) < 2 * c := by linarith
    exact_mod_cast h2
  · intro h
    have h2 : (m : ℚ) < 2 * c := by exact_mod_cast h
    linarith

/-- One null-rate check subtracts exactly its penalty from the score. -/
theorem nullStep_score (df : DataFrame) (st : QState) (c : String × Series) :
    (nullStep df st c).2.2 = st.2.2 -
      (if nullPct df c.2 > 50 then (15 : Int) else if nullPct df c.2 > 20 then 5 else 0) := by
  unfold nullStep
  simp only [gt_iff_lt]
  split_ifs <;> simp

/-- The null-rate loop subtracts the summed per-column penalties. -/
theorem foldl_nullStep_score (df : DataFrame) :
    ∀ (l : List (String × Series)) (st : QState),
      (l.foldl (nullStep df) st).2.2 = st.2.2 - claim_null_penalty df l := by
  intro l
  induction l with
  | nil => intro st; simp [claim_null_penalty]
  | cons c t ih =>
    intro st
    rw [List.foldl_cons, ih, nullStep_score]
    unfold claim_null_penalty
    simp only [List.map_cons, List.sum_cons]
    ring

/-- One single-value check subtracts exactly its penalty. -/
theorem singleStep_score (st : QState) (c : String × Series) :
    (singleStep st c).2.2 = st.2.2 - (if c.2.nunique = 1 then (5 : Int) else 0) := by
  unfold singleStep
  split_ifs <;> simp

/-- The single-value loop subtracts the summed per-column penalties. -/
theorem foldl_singleStep_score :
    ∀ (l : List (String × Series)) (st : QState),
      (l.foldl singleStep st).2.2 = st.2.2 - claim_single_penalty l := by
  intro l
  induction l with
  | nil => intro st; simp [claim_single_penalty]
  | cons c t ih =>
    intro st
    rw [List.foldl_cons, ih, singleStep_score]
    unfold claim_single_penalty
    simp only [List.map_cons, List.sum_cons]
    ring

/-- The assessed score is exactly the clamped penalty formula. -/
theorem assess_score_eq (df : DataFrame) :
    (assess_data_quality df).score = claim_quality_score df := by
  unfold assess_data_quality claim_quality_score
  dsimp only
  rw [foldl_singleStep_score, foldl_nullStep_score]
  unfold claim_dup_penalty
  split_ifs <;> dsimp only <;> ring_nf

/-- The assessment label is the threshold classification of the final
score. -/
theorem assess_assessment_eq (df : DataFrame) :
    (assess_data_quality df).assessment =
      (if 80 ≤ (assess_data_quality df).score then "Good"
       else if 60 ≤ (assess_data_quality df).score then "Fair"
       else "Needs Attention") := rfl

/-- The duplicate penalty is non-negative. -/
theorem dup_penalty_nonneg (df : DataFrame) : 0 ≤ claim_dup_penalty df := by
  unfold claim_dup_penalty
  split_ifs <;> norm_num

/-- The summed null penalties are non-negative. -/
theorem null_penalty_nonneg (df : DataFrame) :
    ∀ l : List (String × Series), 0 ≤ claim_null_penalty df l := by
  intro l
  induction l with
  | nil => simp [claim_null_penalty]
  | cons c t ih =>
    unfold claim_null_penalty at ih ⊢
    simp only [List.map_cons, List.sum_cons]
    split_ifs <;> omega

/-- The summed single-value penalties are non-negative. -/
theorem single_penalty_nonneg :
    ∀ l : List (String × Series), 0 ≤ claim_single_penalty l := by
  intro l
  induction l with
  | nil => simp [claim_single_penalty]
  | cons c t ih =>
    unfold claim_single_penalty at ih ⊢
    simp only [List.map_cons, List.sum_cons]
    split_ifs <;> omega

/-- Quality queries of a profiler-produced Profile: the missing-value
and outlier branches read keys the profiler never writes, so only the
generic issues question can appear. -/
theorem quality_queries_profiler (parse : String → Option ℚ) (df : DataFrame) :
    generate_quality_queries (profile_dataframe parse df) =
      (if (assess_data_quality df).issues ≠ [] then [genericIssueQuery] else []) := by
  have hq : (profile_dataframe parse df).data_quality = assess_data_quality df := rfl
  have hmv : (assess_data_quality df).missing_values = [] := rfl
  have hbs : (profile_dataframe parse df).basic_stats = [] := rfl
  unfold generate_quality_queries
  dsimp only
  rw [hq, hmv, hbs]
  simp [firstOutlierQuery, genericIssueQuery]

/-- The context category contributes nothing on the empty string. -/
theorem context_queries_empty (df : DataFrame) :
    generate_context_queries df "" = [] := by
  with_unfolding_all rfl

/-! ### Claim theorems -/

/-- C2: for every dataset the quality score lies in [0, 100], and the
assessment label is exactly Good when the final score is at least 80,
Fair when it is in [60, 80), and Needs Attention below 60. -/
theorem c2_quality_score_bounds_and_labels (df : DataFrame) :
    0 ≤ (assess_data_quality df).score ∧
    (assess_data_quality df).score ≤ 100 ∧
    ((assess_data_quality df).assessment = "Good" ↔ 80 ≤ (assess_data_quality df).score) ∧
    ((assess_data_quality df).assessment = "Fair" ↔
      (60 ≤ (assess_data_quality df).score ∧ (assess_data_quality df).score < 80)) ∧
    ((assess_data_quality df).assessment = "Needs Attention" ↔
      (assess_data_quality df).score < 60) := by
  have hs : (assess_data_quality df).score = claim_quality_score df := assess_score_eq df
  have h0 : 0 ≤ (assess_data_quality df).score := by
    rw [hs]; exact le_max_left 0 _
  have h100 : (assess_data_quality df).score ≤ 100 := by
    rw [hs]
    unfold claim_quality_score
    have hd := dup_penalty_nonneg df
    have hn := null_penalty_nonneg df df.cols
    have h1 := single_penalty_nonneg df.cols
    exact max_le (by norm_num) (by omega)
  have ha := assess_assessment_eq df
  refine ⟨h0, h100, ?_, ?_, ?_⟩
  · rw [ha]
    split_ifs with hA hB
    · exact iff_of_true rfl hA
    · exact iff_of_false (by decide) hA
    · exact iff_of_false (by decide) hA
  · rw [ha]
    split_ifs with hA hB
    · exact iff_of_false (by decide) (by omega)
    · exact iff_of_true rfl ⟨hB, by omega⟩
    · exact iff_of_false (by decide) (by omega)
  · rw [ha]
    split_ifs with hA hB
    · exact iff_of_false (by decide) (by omega)
    · exact iff_of_false (by decide) (by omega)
    · exact iff_of_true rfl (by omega)

/-- C9: for every dataset the quality score equals 100 minus the sum of
the applicable fixed penalties, clamped at 0 (duplicate rate above 10
percent costs 20, above 5 costs 10; a column above 50 percent nulls
costs 15, above 20 costs 5; a single-distinct-value column costs 5);
and the clean 3-row scenario dataset scores 100 with assessment Good. -/
theorem c9_quality_penalty_formula :
    (∀ df : DataFrame, (assess_data_quality df).score = claim_quality_score df) ∧
    (assess_data_quality df_scenario3).score = 100 ∧
    (assess_data_quality df_scenario3).assessment = "Good" := by
  refine ⟨assess_score_eq, ?_, ?_⟩
  · with_unfolding_all decide
  · with_unfolding_all decide

/-- C7: the outlier statistics of the numeric profiler exist exactly
when the column has more than 4 non-null values and then count the
values outside [Q1 - 1.5·IQR, Q3 + 1.5·IQR]; on the column
[1, 2, 3, 4, 100] this gives Q1 = 2, Q3 = 4, bounds [-1, 7] and exactly
one outlier (the value 100) at 20 percent. -/
theorem c7_iqr_outliers :
    (∀ vals : List (Option ℚ),
      (profile_numeric_column (Series.numeric vals)).outliers =
        (if 4 < (vals.filterMap id).length then
          let non_null := vals.filterMap id
          let q1 := quantileLinear (sortQ non_null) (1/4)
          let q3 := quantileLinear (sortQ non_null) (3/4)
          let iqr := q3 - q1
          let lower_bound := q1 - 1.5 * iqr
          let upper_bound := q3 + 1.5 * iqr
          let outliers := non_null.filter (fun x => x < lower_bound ∨ upper_bound < x)
          some { count := outliers.length
                 percentage := pyRound ((outliers.length : ℚ) / (non_null.length : ℚ) * 100) 2 }
        else none)) ∧
    quantileLinear (sortQ [1, 2, 3, 4, 100]) (1/4) = 2 ∧
    quantileLinear (sortQ [1, 2, 3, 4, 100]) (3/4) = 4 ∧
    quantileLinear (sortQ [1, 2, 3, 4, 100]) (1/4) -
      1.5 * (quantileLinear (sortQ [1, 2, 3, 4, 100]) (3/4) -
        quantileLinear (sortQ [1, 2, 3, 4, 100]) (1/4)) = -1 ∧
    quantileLinear (sortQ [1, 2, 3, 4, 100]) (3/4) +
      1.5 * (quantileLinear (sortQ [1, 2, 3, 4, 100]) (3/4) -
        quantileLinear (sortQ [1, 2, 3, 4, 100]) (1/4)) = 7 ∧
    (profile_numeric_column series_c7).outliers = some { count := 1, percentage := 20 } ∧
    (profile_numeric_column series_c7).stats.q25 = some 2 ∧
    (profile_numeric_column series_c7).stats.q75 = some 4 ∧
    series_c7.numericVals.filter (fun x => x < (-1 : ℚ) ∨ (7 : ℚ) < x) = [100] := by
  refine ⟨fun vals => rfl, ?_, ?_, ?_, ?_, ?_, ?_, ?_, ?_⟩ <;> with_unfolding_all decide

/-- C8: the detected date frequency is absent below two values and
otherwise classifies the modal gap between consecutive sorted
timestamps with the inclusive bands daily 0.9 to 1.1, weekly 6.5 to
7.5, monthly 28 to 31, yearly 365 to 366 days, irregular otherwise; a
column of consecutive daily-spaced dates reports daily. -/
theorem c8_date_frequency :
    (∀ dates : List ℚ,
      detect_date_frequency dates =
        if dates.length < 2 then none
        else some (claim_classify_gap (claim_modal_gap dates))) ∧
    detect_date_frequency [0, 1, 2, 3] = some "daily" ∧
    detect_date_frequency [0] = none := by
  refine ⟨?_, ?_, ?_⟩
  · intro dates
    by_cases h2 : dates.length < 2
    · rw [if_pos h2]
      unfold detect_date_frequency
      rw [if_pos h2]
    · rw [if_neg h2]
      unfold detect_date_frequency
      rw [if_neg h2]
      dsimp only
      have hlen : (consecDiffs (sortQ dates)).length = dates.length - 1 := by
        rw [consecDiffs_length, sortQ_length]
      have hne : consecDiffs (sortQ dates) ≠ [] := by
        intro h
        rw [h] at hlen
        simp at hlen
        omega
      obtain ⟨m, hm⟩ := modeSmallest_isSome hne
      rw [if_neg (by omega : ¬(consecDiffs (sortQ dates)).length = 0)]
      rw [hm]
      unfold claim_modal_gap claim_classify_gap
      rw [hm]
      simp only [Option.getD_some]
      split_ifs <;> rfl
  · with_unfolding_all decide
  · with_unfolding_all decide

/-- C1: type inference is total, realises the ordered first-match
decision list of spec 4.1 as phrased by the claim, and always returns
one of the eight semantic-type tags. -/
theorem c1_infer_type_decision_list (parse : String → Option ℚ) (series : Series) :
    infer_column_type parse series = claim_infer_column_type parse series ∧
    infer_column_type parse series ∈ claim_semantic_types := by
  constructor
  · unfold infer_column_type claim_infer_column_type
    dsimp only
    simp only [ratio_gt_half]
  · unfold infer_column_type
    dsimp only
    split_ifs <;> simp [claim_semantic_types]

/-- C5: the suggestion list is the max_suggestions-truncation of the
first-occurrence deduplication of the category outputs concatenated in
the fixed order overview, quality, ranking, trend, context, follow-up
with the gates of the claim; hence it never exceeds max_suggestions and
holds no duplicate. -/
theorem c5_suggestions_shape (df : DataFrame) (profile : Profile) (context : Option String)
    (chat_history : Option (List ChatMsg)) (max_suggestions : Nat) :
    generate_suggestions df profile context chat_history max_suggestions =
      (dedupFirst (claim_category_concat df profile context chat_history)).take
        max_suggestions ∧
    (generate_suggestions df profile context chat_history max_suggestions).length ≤
      max_suggestions ∧
    (generate_suggestions df profile context chat_history max_suggestions).Nodup := by
  have h1 : (match chat_history with
      | none => generate_overview_queries df profile
      | some h => if h.length < 2 then generate_overview_queries df profile else []) =
      (if histLen chat_history < 2 then generate_overview_queries df profile else []) := by
    cases chat_history with
    | none => simp [histLen]
    | some h => simp [histLen]
  have h5 : (match context with
      | some c => if c ≠ "" then generate_context_queries df c else []
      | none => []) =
      (match context with
       | some c => generate_context_queries df c
       | none => []) := by
    cases context with
    | none => rfl
    | some c =>
      by_cases hc : c = ""
      · subst hc
        simp [context_queries_empty]
      · simp [hc]
  have heq : generate_suggestions df profile context chat_history max_suggestions =
      (dedupFirst (claim_category_concat df profile context chat_history)).take
        max_suggestions := by
    unfold generate_suggestions claim_category_concat
    dsimp only
    rw [h1, h5]
  refine ⟨heq, ?_, ?_⟩
  · rw [heq]
    exact List.length_take_le _ _
  · rw [heq]
    exact ((List.take_sublist _ _).nodup (dedupLoop_nodup _ []))

/-- C4 counterexample: on a dataset whose age column has missing values
and whose val column has an IQR outlier (and whose quality report lists
an issue), the suggestions generated from the profiler's own Profile
contain neither the missing-value question naming the offending column
nor the outlier question, contrary to parts (a) and (b) of the claim. -/
theorem c4_counterexample :
    0 < ((df_missing_outlier.cols.getD 0 ("", Series.numeric [])).2).nullCount ∧
    (profile_numeric_column (Series.numeric [some 1, some 2, some 3, some 4, some 100])).outliers =
      some { count := 1, percentage := 20 } ∧
    (assess_data_quality df_missing_outlier).issues ≠ [] ∧
    "Why do columns age have missing values?" ∉
      generate_suggestions df_missing_outlier (profile_dataframe parse0 df_missing_outlier)
        none none 7 ∧
    "Show me the outliers in val" ∉
      generate_suggestions df_missing_outlier (profile_dataframe parse0 df_missing_outlier)
        none none 7 := by
  refine ⟨?_, ?_, ?_, ?_, ?_⟩ <;> with_unfolding_all decide

/-- C4 amended: with a Profile produced by profile_dataframe the
quality category can only produce the generic issues question — the
missing-value and outlier branches read the keys missing_values and
basic_stats, which the profiler never writes — and that question does
reach the final list (with the default cap 7) whenever the issue list
is non-empty. -/
theorem c4_amended_quality_queries :
    (∀ (parse : String → Option ℚ) (df : DataFrame),
      generate_quality_queries (profile_dataframe parse df) =
        (if (assess_data_quality df).issues ≠ [] then [genericIssueQuery] else [])) ∧
    (∀ (parse : String → Option ℚ) (df : DataFrame) (context : Option String)
        (chat_history : Option (List ChatMsg)),
      (assess_data_quality df).issues ≠ [] →
        genericIssueQuery ∈
          generate_suggestions df (profile_dataframe parse df) context chat_history 7) := by
  constructor
  · exact quality_queries_profiler
  · intro parse df context chat_history hiss
    have key : ∀ (s1 rest : List String), s1.length ≤ 4 →
        genericIssueQuery ∈ (dedupFirst (s1 ++ genericIssueQuery :: rest)).take 7 := by
      intro s1 rest h
      exact mem_take_of_le (s1.length + 1) _ 7 (by omega)
        (mem_take_dedupLoop _ s1 [] rest (List.not_mem_nil _))
    unfold generate_suggestions
    dsimp only
    rw [quality_queries_profiler parse df, if_pos hiss]
    rw [show ∀ a b c d e f : List String,
        a ++ b ++ c ++ d ++ e ++ f = a ++ (b ++ (c ++ (d ++ (e ++ f)))) from
      fun a b c d e f => by simp [List.append_assoc]]
    rw [List.singleton_append]
    apply key
    cases chat_history with
    | none => exact overview_queries_length_le df _
    | some h =>
      dsimp only
      split_ifs
      · exact overview_queries_length_le df _
      · simp

/-- C4 witness: a dataset with a high-null column has a non-empty issue
list and its suggestion list contains the generic question. -/
theorem c4_witness :
    (assess_data_quality df_missing_outlier).issues ≠ [] ∧
    genericIssueQuery ∈
      generate_suggestions df_missing_outlier (profile_dataframe parse0 df_missing_outlier)
        none none 7 :=
  ⟨by with_unfolding_all decide,
   c4_amended_quality_queries.2 parse0 df_missing_outlier none none
     (by with_unfolding_all decide)⟩

/-- C6 counterexample: the numeric user_id column [0, 1] has all
non-null values distinct (sequential integers), yet type inference
classifies it boolean — two distinct values inside the boolean token
set take precedence over the identifier rule. -/
theorem c6_counterexample :
    (([some 0, some 1] : List (Option ℚ)).filterMap id).Nodup ∧
    ([some 0, some 1] : List (Option ℚ)).filterMap id ≠ [] ∧
    infer_column_type parse0 series_user01 = "boolean" := by
  refine ⟨?_, ?_, ?_⟩ <;> with_unfolding_all decide

/-- C6 amended: whenever the dataset has a column named user_id — of
any dtype, so in particular also in the boolean [0, 1] and all-null
cases — that name lands in both potential_ids and
potential_foreign_keys (the name-based rules fire regardless of the
inferred type); and a numeric user_id column with all-distinct
non-null values is classified identifier provided it is not empty and
does not consist of exactly the two boolean-token values 0 and 1. -/
theorem c6_amended_user_id (parse : String → Option ℚ) (df : DataFrame) (s : Series)
    (hmem : ("user_id", s) ∈ df.cols) :
    "user_id" ∈ (detect_relationships parse df).potential_ids ∧
    "user_id" ∈ (detect_relationships parse df).potential_foreign_keys ∧
    (∀ vs : List (Option ℚ), s = Series.numeric vs →
      vs.filterMap id ≠ [] →
      (vs.filterMap id).Nodup →
      ¬((vs.filterMap id).length = 2 ∧ ∀ x ∈ vs.filterMap id, x = 0 ∨ x = 1) →
      infer_column_type parse s = "identifier") := by
  refine ⟨?_, ?_, ?_⟩
  · unfold detect_relationships
    dsimp only
    refine List.mem_map.mpr ⟨("user_id", s),
      List.mem_filter.mpr ⟨hmem, ?_⟩, rfl⟩
    rw [Bool.or_eq_true]
    right
    show idNameCond "user_id" = true
    with_unfolding_all decide
  · unfold detect_relationships
    dsimp only
    refine List.mem_map.mpr ⟨("user_id", s),
      List.mem_filter.mpr ⟨hmem, ?_⟩, rfl⟩
    show fkCond "user_id" = true
    with_unfolding_all decide
  · intro vs hs hne hnd hnb
    subst hs
    have hnn : (Series.numeric vs).non_null_count = (vs.filterMap id).length := rfl
    have hnu : (Series.numeric vs).nunique = (vs.filterMap id).length := by
      show (vs.filterMap id).dedup.length = _
      rw [List.Nodup.dedup hnd]
    have hpos : 0 < (vs.filterMap id).length := List.length_pos.mpr hne
    have c1 : ¬((Series.numeric vs).non_null_count = 0) := by
      rw [hnn]
      omega
    have c2 : ¬((Series.numeric vs).is_datetime_dtype = true) := by
      simp [Series.is_datetime_dtype]
    have c3 : ¬((Series.numeric vs).is_bool_dtype = true ∨
        ((Series.numeric vs).nunique = 2 ∧ (Series.numeric vs).uniqueInBoolSet = true)) := by
      rintro (h | ⟨h2, hall⟩)
      · simp [Series.is_bool_dtype] at h
      · refine hnb ⟨by rw [← hnu]; exact h2, ?_⟩
        intro x hx
        have hall' : (vs.filterMap id).all (fun q => q == 0 || q == 1) = true := hall
        have hb := List.all_eq_true.mp hall' x hx
        simpa using hb
    have c5 : ((Series.numeric vs).nunique : ℚ) /
        ((Series.numeric vs).non_null_count : ℚ) > 0.95 := by
      rw [hnn, hnu, div_self (by exact_mod_cast Nat.pos_iff_ne_zero.mp hpos)]
      norm_num
    unfold infer_column_type
    rw [if_neg c1, if_neg c2, if_neg c3,
      if_pos (show (Series.numeric vs).is_numeric_dtype = true from rfl), if_pos c5]

/-- C6 witness: the amended statement at the concrete one-column
dataset with user_id values 1, 2, 3, every hypothesis discharged
there. -/
theorem c6_witness :
    "user_id" ∈ (detect_relationships parse0 df_user).potential_ids ∧
    "user_id" ∈ (detect_relationships parse0 df_user).potential_foreign_keys ∧
    infer_column_type parse0 (Series.numeric [some 1, some 2, some 3]) = "identifier" := by
  have h := c6_amended_user_id parse0 df_user (Series.numeric [some 1, some 2, some 3])
    (by with_unfolding_all decide)
  exact ⟨h.1, h.2.1,
    h.2.2 [some 1, some 2, some 3] rfl
      (by with_unfolding_all decide)
      (by with_unfolding_all decide)
      (by with_unfolding_all decide)⟩

/-- C3 counterexample: the column loop contains no exception handling,
so a numeric profiler that raises aborts the whole profiling run — no
Profile at all is produced, refuting the claim that failures are
column-local. -/
theorem c3_counterexample : ¬claim_c3_statement := by
  intro h
  obtain ⟨pr, hok, _⟩ := h failing_profilers parse0 df_two_cols
  have herr : profile_dataframe_except failing_profilers parse0 df_two_cols =
      Except.error "numeric profiler failure" := by
    with_unfolding_all rfl
  rw [herr] at hok
  exact Except.noConfusion hok

/-- C3 amended: with the actual per-type profilers of the source —
which are total, the datetime profiler absorbing its parse failures
into an error marker — profiling always completes with every column
present; but the column loop propagates any error a dispatched
profiler raises, aborting the run at the first failing column. -/
theorem c3_amended_error_flow :
    (∀ (parse : String → Option ℚ) (df : DataFrame),
      profile_dataframe_except (actual_profiler_set parse) parse df =
        Except.ok (profile_dataframe parse df)) ∧
    (∀ (ps : ProfilerSet) (parse : String → Option ℚ) (name : String) (s : Series)
        (rest : List (String × Series)) (e : String),
      dispatch_profiler ps (infer_column_type parse s) s = Except.error e →
        profile_columns_except ps parse ⟨(name, s) :: rest⟩ = Except.error e) := by
  constructor
  · intro parse df
    have hcols : ∀ l, profile_columns_loop (actual_profiler_set parse) parse df l =
        Except.ok (l.map (fun c =>
          (c.1, baseColumnProfile df c.2 (infer_column_type parse c.2)
            (column_extra parse (infer_column_type parse c.2) c.2)))) := by
      intro l
      induction l with
      | nil => rfl
      | cons c t ih =>
        have hd : dispatch_profiler (actual_profiler_set parse)
            (infer_column_type parse c.2) c.2 =
            Except.ok (column_extra parse (infer_column_type parse c.2) c.2) := by
          unfold dispatch_profiler column_extra actual_profiler_set
          split_ifs <;> rfl
        unfold profile_columns_loop
        rw [hd, ih]
        rfl
    unfold profile_dataframe_except profile_columns_except profile_dataframe profile_columns
    rw [hcols]
    rfl
  · intro ps parse name s rest e he
    unfold profile_columns_except
    show profile_columns_loop ps parse _ ((name, s) :: rest) = Except.error e
    unfold profile_columns_loop
    rw [he]

/-- C3 witness: the amended propagation statement at a concrete failing
numeric profiler and a concrete one-column numeric dataset. -/
theorem c3_witness :
    profile_columns_except failing_profilers parse0
      ⟨[("x", Series.numeric [some 1, some 2, some 2])]⟩ =
      Except.error "numeric profiler failure" :=
  c3_amended_error_flow.2 failing_profilers parse0 "x"
    (Series.numeric [some 1, some 2, some 2]) [] "numeric profiler failure"
    (by with_unfolding_all rfl)

/-- The similarity test of the source agrees with the claim's
reformulation (shared distinct words exceeding half the shorter word
count, empty never similar). -/
theorem is_similar_eq (q1 q2 : String) :
    is_similar_query q1 q2 = claim_similar q1 q2 := by
  unfold is_similar_query claim_similar
  dsimp only
  by_cases h1 : pySplit q1 = []
  · simp [h1]
  · by_cases h2 : pySplit q2 = []
    · simp [h2]
    · have l1 : 0 < (pySplit q1).length := List.length_pos.mpr h1
      have l2 : 0 < (pySplit q2).length := List.length_pos.mpr h2
      have hm : 0 < min (pySplit q1).length (pySplit q2).length := by omega
      have hiff : (((((pySplit q1).dedup.filter
            (fun w => (pySplit q2).contains w)).length : ℚ)) /
            (((min (pySplit q1).length (pySplit q2).length : ℕ)) : ℚ) > 0.5) ↔
          2 * ((pySplit q1).dedup.filter (fun w => (pySplit q2).contains w)).length >
            min (pySplit q1).length (pySplit q2).length := by
        rw [gt_iff_lt, show (0.5 : ℚ) = 1 / 2 by norm_num,
          div_lt_div_iff₀ (by norm_num) (by exact_mod_cast hm)]
        constructor
        · intro h
          have hq : (((min (pySplit q1).length (pySplit q2).length : ℕ)) : ℚ) <
              2 * ((pySplit q1).dedup.filter (fun w => (pySplit q2).contains w)).length := by
            linarith
          exact_mod_cast hq
        · intro h
          have hq : (((min (pySplit q1).length (pySplit q2).length : ℕ)) : ℚ) <
              2 * ((pySplit q1).dedup.filter (fun w => (pySplit q2).contains w)).length := by
            exact_mod_cast h
          linarith
      have hdec : ∀ (P : Prop) [inst : Decidable P], (if P then true else false) = decide P := by
        intro P inst
        by_cases h : P <;> simp [h]
      have e1 : (pySplit q1).isEmpty = false := by
        cases hps : pySplit q1 with
        | nil => exact absurd hps h1
        | cons a l => rfl
      have e2 : (pySplit q2).isEmpty = false := by
        cases hps : pySplit q2 with
        | nil => exact absurd hps h2
        | cons a l => rfl
      rw [hdec, e1, e2]
      simp only [Bool.not_false, Bool.true_and]
      rw [decide_eq_decide]
      constructor
      · rintro ⟨-, hr⟩
        exact hiff.mp hr
      · intro hr
        exact ⟨hm, hiff.mpr hr⟩

/-- C10: the post-chat update returns exactly the prior suggestions not
similar to the user message followed by the keyword-triggered
follow-ups of the answer, with no cap and no deduplication — on some
inputs the result is longer than 7 and holds duplicates. -/
theorem c10_update_after_chat :
    (∀ (current_suggestions : List String) (user_message ai_response : String),
      update_suggestions_after_chat current_suggestions user_message ai_response =
        current_suggestions.filter
          (fun s => !claim_similar s.toLower user_message.toLower) ++
        claim_followups ai_response) ∧
    (update_suggestions_after_chat (List.replicate 8 "alpha beta gamma") "zzz qqq"
      "there are missing entries").length = 9 ∧
    ¬(update_suggestions_after_chat (List.replicate 8 "alpha beta gamma") "zzz qqq"
      "there are missing entries").Nodup := by
  refine ⟨?_, ?_, ?_⟩
  · intro cur u a
    unfold update_suggestions_after_chat claim_followups
    dsimp only
    simp only [is_similar_eq]
  · with_unfolding_all decide
  · with_unfolding_all decide
